import Mathlib

/-!
Verification of the AI Bridge platform against its specification.

The definitions below are shallow embeddings of the Python source:
* `src/services/stripe_service.py` — `StripeService.calculate_project_cost`
* `src/routes/auth.py` — `register`, `login`, `validate_email`, `validate_password`
* `src/models/project.py` — `Project.progress_percentage`
* `src/routes/files.py` — `upload_files`, `allowed_file`

Python floats are modelled by exact rationals (`ℚ`); `round(x, 2)` is
modelled by round-half-to-even at two decimals, which is Python 3's
rounding convention, and the IEEE results agree with the exact-rational
results on every concrete value claimed by the specification.
-/

namespace AIBridge

/-- Python's `round` to an integer: round half to even (banker's rounding),
acting here on an exact rational. -/
def pyRoundInt (q : ℚ) : ℤ :=
  let f := ⌊q⌋
  let r := q - (f : ℚ)
  if r < 1/2 then f
  else if 1/2 < r then f + 1
  else if f % 2 = 0 then f else f + 1

/-- Python's `round(x, 2)`: round half to even at two decimal places. -/
def round2 (q : ℚ) : ℚ := (pyRoundInt (q * 100) : ℚ) / 100

/-- `self.pricing_tiers[tier]['price_per_annotation']` from
`StripeService.__init__`: starter $0.15, professional $0.12,
enterprise $0.10 per annotation. -/
def price_per_annotation : String → ℚ
  | "starter" => 15/100
  | "professional" => 12/100
  | "enterprise" => 10/100
  | _ => 0

/-- Python truthiness of the `custom_rate` argument: `if custom_rate:` is
taken iff the argument is neither `None` nor zero. -/
def truthy : Option ℚ → Bool
  | none => false
  | some r => r != 0

/-- The dictionary returned by `StripeService.calculate_project_cost`. -/
structure CostResult where
  annotation_count : ℕ
  tier : String
  rate_per_annotation : ℚ
  subtotal : ℚ
  discount_percentage : ℚ
  discount_amount : ℚ
  total_cost : ℚ
  currency : String
deriving Repr, DecidableEq

/-- Shallow embedding of `StripeService.calculate_project_cost`.
If `custom_rate` is truthy the tier is `"custom"` at that rate; otherwise
the tier is chosen by `annotation_count` (`≤ 1000` starter, `≤ 10000`
professional, else enterprise).  Exactly one volume-discount band applies,
tested high to low with strict `>`: `> 50000` 15%, `> 25000` 10%,
`> 10000` 5%, else 0%.  `discount_amount` and `total_cost` are rounded to
two decimals as in the source. -/
def calculate_project_cost (annotation_count : ℕ) (custom_rate : Option ℚ) :
    CostResult :=
  let tier : String :=
    if truthy custom_rate then "custom"
    else if annotation_count ≤ 1000 then "starter"
    else if annotation_count ≤ 10000 then "professional"
    else "enterprise"
  let rate : ℚ :=
    if truthy custom_rate then custom_rate.getD 0
    else price_per_annotation tier
  let subtotal : ℚ := (annotation_count : ℚ) * rate
  let discount_percentage : ℚ :=
    if 50000 < annotation_count then 15/100
    else if 25000 < annotation_count then 10/100
    else if 10000 < annotation_count then 5/100
    else 0
  let discount_amount : ℚ := subtotal * discount_percentage
  { annotation_count := annotation_count
    tier := tier
    rate_per_annotation := rate
    subtotal := subtotal
    discount_percentage := discount_percentage
    discount_amount := round2 discount_amount
    total_cost := round2 (subtotal - discount_amount)
    currency := "usd" }

/-- Claim C1 — `calculate_project_cost(10001)` with no custom rate returns
tier `"enterprise"`, rate 0.10 per annotation, subtotal 1000.10, a 5%
discount, and a total cost of 950.10 after round-half-to-even at two
decimals (950.095 rounds up to 950.10). -/
theorem cost_10001_enterprise :
    (calculate_project_cost 10001 none).tier = "enterprise" ∧
    CostResult.rate_per_annotation (calculate_project_cost 10001 none) = 10/100 ∧
    (calculate_project_cost 10001 none).subtotal = 10001/10 ∧
    (calculate_project_cost 10001 none).discount_percentage = 5/100 ∧
    (calculate_project_cost 10001 none).total_cost = 95010/100 := by
  refine ⟨?_, ?_, ?_, ?_, ?_⟩ <;>
    norm_num [calculate_project_cost, truthy, price_per_annotation, round2,
      pyRoundInt]

/-- Claim C2 — exactly one volume-discount band applies, chosen by strict
`>` comparisons tested high to low (`> 50000` 15%, `> 25000` 10%,
`> 10000` 5%, else 0%), for every annotation count and custom rate; in
particular 10000 annotations get tier `"professional"` with 0% discount,
10001 get tier `"enterprise"` with 5%, and 60000 get tier `"enterprise"`,
15% discount and total cost 5100.00. -/
theorem volume_discount_bands :
    (∀ (n : ℕ) (cr : Option ℚ),
      (calculate_project_cost n cr).discount_percentage =
        (if 50000 < n then 15/100
         else if 25000 < n then 10/100
         else if 10000 < n then 5/100
         else 0)) ∧
    (calculate_project_cost 10000 none).tier = "professional" ∧
    (calculate_project_cost 10000 none).discount_percentage = 0 ∧
    (calculate_project_cost 10001 none).tier = "enterprise" ∧
    (calculate_project_cost 10001 none).discount_percentage = 5/100 ∧
    (calculate_project_cost 60000 none).tier = "enterprise" ∧
    (calculate_project_cost 60000 none).discount_percentage = 15/100 ∧
    (calculate_project_cost 60000 none).total_cost = 5100 := by
  refine ⟨fun n cr => rfl, ?_, ?_, ?_, ?_, ?_, ?_, ?_⟩ <;>
    norm_num [calculate_project_cost, truthy, price_per_annotation, round2,
      pyRoundInt]

/-- Claim C3 — with no custom rate the tier is selected by the annotation
count (`≤ 1000` starter at 0.15, `≤ 10000` professional at 0.12, else
enterprise at 0.10); in particular every count `≤ 1000` gets tier
`"starter"`, rate 0.15 and a 0% discount. -/
theorem tier_selection (n : ℕ) :
    ((calculate_project_cost n none).tier =
      (if n ≤ 1000 then "starter"
       else if n ≤ 10000 then "professional"
       else "enterprise")) ∧
    (CostResult.rate_per_annotation (calculate_project_cost n none) =
      (if n ≤ 1000 then 15/100
       else if n ≤ 10000 then 12/100
       else 10/100)) ∧
    (n ≤ 1000 →
      (calculate_project_cost n none).tier = "starter" ∧
      CostResult.rate_per_annotation (calculate_project_cost n none) = 15/100 ∧
      (calculate_project_cost n none).discount_percentage = 0) := by
  refine ⟨?_, ?_, fun h => ⟨?_, ?_, ?_⟩⟩ <;>
    simp only [calculate_project_cost, truthy, Bool.false_eq_true, if_false] <;>
    split_ifs <;> first | rfl | omega

/-- Claim C3 witness — instantiation at 800 annotations: tier `"starter"`,
rate 0.15, discount 0%. -/
theorem tier_selection_witness :
    (calculate_project_cost 800 none).tier = "starter" ∧
    CostResult.rate_per_annotation (calculate_project_cost 800 none) = 15/100 ∧
    (calculate_project_cost 800 none).discount_percentage = 0 :=
  (tier_selection 800).2.2 (by norm_num)

/-- Claim C4 counterexample — a supplied custom rate of 0 is falsy in
Python, so `calculate_project_cost(500, custom_rate=0)` does not take the
custom branch: its tier is `"starter"`, not `"custom"`. -/
theorem custom_rate_zero_counterexample :
    (calculate_project_cost 500 (some 0)).tier ≠ "custom" ∧
    (calculate_project_cost 500 (some 0)).tier = "starter" ∧
    CostResult.rate_per_annotation (calculate_project_cost 500 (some 0)) = 15/100 := by
  refine ⟨?_, ?_, ?_⟩ <;>
    simp [calculate_project_cost, truthy, price_per_annotation]

/-- Claim C4 (amended) — for every call supplying a non-zero custom rate,
`calculate_project_cost` returns tier `"custom"`, rate equal to the custom
rate and subtotal `annotation_count * custom_rate`; a supplied custom rate
of 0 is falsy and falls through to the standard tiers. -/
theorem custom_rate_branch (n : ℕ) (r : ℚ) (hr : r ≠ 0) :
    (calculate_project_cost n (some r)).tier = "custom" ∧
    CostResult.rate_per_annotation (calculate_project_cost n (some r)) = r ∧
    (calculate_project_cost n (some r)).subtotal = (n : ℚ) * r := by
  have ht : truthy (some r) = true := by simp [truthy, hr]
  refine ⟨?_, ?_, ?_⟩ <;> simp [calculate_project_cost, ht, Option.getD]

/-- Claim C4 witness — instantiation at 500 annotations with custom rate
1/5: hypothesis `1/5 ≠ 0` holds and the custom branch is taken. -/
theorem custom_rate_branch_witness :
    ((1 : ℚ)/5 ≠ 0) ∧
    ((calculate_project_cost 500 (some (1/5))).tier = "custom" ∧
     CostResult.rate_per_annotation (calculate_project_cost 500 (some (1/5))) = 1/5 ∧
     (calculate_project_cost 500 (some (1/5))).subtotal = (500 : ℚ) * (1/5)) :=
  ⟨by norm_num, custom_rate_branch 500 (1/5) (by norm_num)⟩

/-! ### Authentication routes (`src/routes/auth.py`) -/

/-- Python `str.isspace` characters stripped by `str.strip()`. -/
def py_isspace (c : Char) : Bool :=
  c = ' ' || c = '\t' || c = '\n' || c = '\x0b' || c = '\x0c' || c = '\r'

/-- Python `str.strip()`: drop whitespace from both ends. -/
def py_strip (s : String) : String :=
  ⟨((s.toList.dropWhile py_isspace).reverse.dropWhile py_isspace).reverse⟩

/-- Python `str.lower()` (ASCII case, which is all the source relies on). -/
def py_lower (s : String) : String :=
  ⟨s.toList.map Char.toLower⟩

/-- Character class `[a-zA-Z0-9._%+-]` of the local part of the email
regex in `validate_email`. -/
def emailLocalChar (c : Char) : Bool :=
  c.isAlpha || c.isDigit || c = '.' || c = '_' || c = '%' || c = '+' || c = '-'

/-- Character class `[a-zA-Z0-9.-]` of the domain part of the email regex
in `validate_email`. -/
def emailDomainChar (c : Char) : Bool :=
  c.isAlpha || c.isDigit || c = '.' || c = '-'

/-- `validate_email` from `src/routes/auth.py`: the anchored regex
`^[a-zA-Z0-9._%+-]+@[a-zA-Z0-9.-]+\.[a-zA-Z]\x7b2,\x7d$`.  Since none of
the character classes contains `@`, a match splits the string at its first
`@`; since the trailing class `[a-zA-Z]` contains no dot, the mandatory
dot of a match is the last dot of the domain.  The function below checks
exactly that decomposition. -/
def validate_email (s : String) : Bool :=
  let cs := s.toList
  let localPart := cs.takeWhile (· ≠ '@')
  match cs.dropWhile (· ≠ '@') with
  | '@' :: domain =>
    match domain.reverse.dropWhile (· ≠ '.') with
    | '.' :: revSub =>
      let revTld := domain.reverse.takeWhile (· ≠ '.')
      !localPart.isEmpty && localPart.all emailLocalChar &&
      !revSub.isEmpty && revSub.all emailDomainChar &&
      decide (2 ≤ revTld.length) && revTld.all Char.isAlpha
    | _ => false
  | _ => false

/-- `validate_password` from `src/routes/auth.py`: at least 8 characters,
one uppercase letter, one lowercase letter and one digit; returns the
validity flag together with the message. -/
def validate_password (p : String) : Bool × String :=
  if p.length < 8 then (false, "Password must be at least 8 characters long")
  else if !(p.toList.any Char.isUpper) then
    (false, "Password must contain at least one uppercase letter")
  else if !(p.toList.any Char.isLower) then
    (false, "Password must contain at least one lowercase letter")
  else if !(p.toList.any Char.isDigit) then
    (false, "Password must contain at least one number")
  else (true, "Password is valid")

/-- `UserRole` from `src/models/user.py`. -/
inductive UserRole where
  | admin
  | client_admin
  | project_manager
  | labeler
  | reviewer
  | client_user
deriving DecidableEq, Repr

/-- A row of the `User` table (the columns the auth routes read or
write). -/
structure UserRec where
  id : ℕ
  username : String
  email : String
  password_hash : String
  first_name : String
  last_name : String
  phone : String
  role : UserRole
  organization_id : Option ℕ
  is_active : Bool
deriving DecidableEq, Repr

/-- A row of the `Organization` table (the columns `register` writes). -/
structure OrgRec where
  id : ℕ
  name : String
  contact_email : String
  is_active : Bool
deriving DecidableEq, Repr

/-- The database state the auth routes touch. -/
structure DBState where
  users : List UserRec
  orgs : List OrgRec
deriving DecidableEq, Repr

/-- An HTTP response: status code and the `message` field of the JSON
body. -/
structure Response where
  status : ℕ
  message : String
deriving DecidableEq, Repr

/-- The JSON body of a `/register` request.  A missing field and an empty
string are both falsy in Python, so absent values are modelled by `""`
(`data.get(field)` / `data.get(field, '')`). -/
structure RegisterData where
  username : String
  email : String
  password : String
  first_name : String
  last_name : String
  phone : String
  organization_name : String
deriving DecidableEq, Repr

/-- Shallow embedding of `register` from `src/routes/auth.py`,
parametrised by the password-hashing function `genHash`
(`werkzeug.generate_password_hash`).  Row ids model SQL autoincrement.
Returns the response and the new database state. -/
def register (genHash : String → String) (st : DBState) (data : RegisterData) :
    Response × DBState :=
  if data.username = "" then (⟨400, "username is required"⟩, st)
  else if data.email = "" then (⟨400, "email is required"⟩, st)
  else if data.password = "" then (⟨400, "password is required"⟩, st)
  else
    let username := py_strip data.username
    let email := py_lower (py_strip data.email)
    let password := data.password
    if !validate_email email then (⟨400, "Invalid email format"⟩, st)
    else if !(validate_password password).1 then
      (⟨400, (validate_password password).2⟩, st)
    else if st.users.any (fun u => u.username == username) then
      (⟨409, "Username already exists"⟩, st)
    else if st.users.any (fun u => u.email == email) then
      (⟨409, "Email already registered"⟩, st)
    else
      let organization_name := py_strip data.organization_name
      let newOrgId := st.orgs.length + 1
      let role :=
        if organization_name = "" then UserRole.client_user
        else UserRole.client_admin
      let organization_id : Option ℕ :=
        if organization_name = "" then none else some newOrgId
      let newOrgs :=
        if organization_name = "" then st.orgs
        else st.orgs ++ [⟨newOrgId, organization_name, email, true⟩]
      let user : UserRec :=
        ⟨st.users.length + 1, username, email, genHash password,
         py_strip data.first_name, py_strip data.last_name,
         py_strip data.phone, role, organization_id, true⟩
      (⟨201, "User registered successfully"⟩, ⟨st.users ++ [user], newOrgs⟩)

/-- Shallow embedding of `login` from `src/routes/auth.py`, parametrised
by the hash checker `checkHash hash password`
(`werkzeug.check_password_hash`).  The source only touches timestamp
columns (`last_login`, `last_activity`) on success, which this model does
not track, so the returned state always equals the input state. -/
def login (checkHash : String → String → Bool) (st : DBState)
    (email password : String) : Response × DBState :=
  if email = "" ∨ password = "" then
    (⟨400, "Email and password are required"⟩, st)
  else
    let e := py_lower (py_strip email)
    match st.users.find? (fun u => u.email == e) with
    | none => (⟨401, "Invalid email or password"⟩, st)
    | some user =>
      if !checkHash user.password_hash password then
        (⟨401, "Invalid email or password"⟩, st)
      else if !user.is_active then
        (⟨401, "Account is deactivated"⟩, st)
      else (⟨200, "Login successful"⟩, st)

/-- The database state after `n` consecutive calls of `login` with the
same credentials. -/
def login_iter (checkHash : String → String → Bool) (st : DBState)
    (email password : String) : ℕ → DBState
  | 0 => st
  | n + 1 =>
    (login checkHash (login_iter checkHash st email password n)
      email password).2

set_option maxHeartbeats 1000000 in
/-- Inversion for `register`: a 201 response means every validation and
uniqueness check passed. -/
theorem register_201_inv (genHash : String → String) (st : DBState)
    (d : RegisterData) (h : (register genHash st d).1.status = 201) :
    d.username ≠ "" ∧ d.email ≠ "" ∧ d.password ≠ "" ∧
    validate_email (py_lower (py_strip d.email)) = true ∧
    (validate_password d.password).1 = true ∧
    st.users.any (fun u => u.username == py_strip d.username) = false ∧
    st.users.any (fun u => u.email == py_lower (py_strip d.email)) = false := by
  simp only [register] at h
  split_ifs at h with h1 h2 h3 h4 h5 h6 h7 <;> simp_all

set_option maxHeartbeats 1000000 in
/-- When every check passes, `register` creates exactly one user (and the
organization when a non-empty name was supplied). -/
theorem register_eq_success (genHash : String → String) (st : DBState)
    (d : RegisterData)
    (h1 : d.username ≠ "") (h2 : d.email ≠ "") (h3 : d.password ≠ "")
    (h4 : validate_email (py_lower (py_strip d.email)) = true)
    (h5 : (validate_password d.password).1 = true)
    (h6 : st.users.any (fun u => u.username == py_strip d.username) = false)
    (h7 : st.users.any (fun u => u.email == py_lower (py_strip d.email)) = false) :
    register genHash st d =
      (⟨201, "User registered successfully"⟩,
       ⟨st.users ++
          [⟨st.users.length + 1, py_strip d.username,
            py_lower (py_strip d.email), genHash d.password,
            py_strip d.first_name, py_strip d.last_name, py_strip d.phone,
            (if py_strip d.organization_name = "" then UserRole.client_user
             else UserRole.client_admin),
            (if py_strip d.organization_name = "" then none
             else some (st.orgs.length + 1)), true⟩],
        if py_strip d.organization_name = "" then st.orgs
        else st.orgs ++
          [⟨st.orgs.length + 1, py_strip d.organization_name,
            py_lower (py_strip d.email), true⟩]⟩) := by
  simp only [register, h4, h5, h6, h7, if_neg h1, if_neg h2, if_neg h3]
  simp

set_option maxHeartbeats 1000000 in
/-- A taken username makes `register` answer 409 without touching the
state. -/
theorem register_eq_username_conflict (genHash : String → String)
    (st : DBState) (d : RegisterData)
    (h1 : d.username ≠ "") (h2 : d.email ≠ "") (h3 : d.password ≠ "")
    (h4 : validate_email (py_lower (py_strip d.email)) = true)
    (h5 : (validate_password d.password).1 = true)
    (h6 : st.users.any (fun u => u.username == py_strip d.username) = true) :
    register genHash st d = (⟨409, "Username already exists"⟩, st) := by
  simp only [register, h4, h5, h6, if_neg h1, if_neg h2, if_neg h3]
  simp

set_option maxHeartbeats 1000000 in
/-- A registered email makes `register` answer 409 without touching the
state. -/
theorem register_eq_email_conflict (genHash : String → String)
    (st : DBState) (d : RegisterData)
    (h1 : d.username ≠ "") (h2 : d.email ≠ "") (h3 : d.password ≠ "")
    (h4 : validate_email (py_lower (py_strip d.email)) = true)
    (h5 : (validate_password d.password).1 = true)
    (h6 : st.users.any (fun u => u.username == py_strip d.username) = false)
    (h7 : st.users.any (fun u => u.email == py_lower (py_strip d.email)) = true) :
    register genHash st d = (⟨409, "Email already registered"⟩, st) := by
  simp only [register, h4, h5, h6, h7, if_neg h1, if_neg h2, if_neg h3]
  simp

/-- The state after a successful `register`: one user appended, with the
role and organization determined by `organization_name`. -/
theorem register_success_state (genHash : String → String) (st : DBState)
    (d : RegisterData) (h : (register genHash st d).1.status = 201) :
    ∃ u : UserRec,
      (register genHash st d).2.users = st.users ++ [u] ∧
      u.username = py_strip d.username ∧
      u.email = py_lower (py_strip d.email) ∧
      u.is_active = true ∧
      (py_strip d.organization_name = "" →
        u.role = UserRole.client_user ∧ u.organization_id = none ∧
        (register genHash st d).2.orgs = st.orgs) ∧
      (py_strip d.organization_name ≠ "" →
        u.role = UserRole.client_admin ∧
        ∃ org : OrgRec, (register genHash st d).2.orgs = st.orgs ++ [org] ∧
          u.organization_id = some org.id ∧
          org.name = py_strip d.organization_name ∧
          org.contact_email = py_lower (py_strip d.email) ∧
          org.is_active = true) := by
  obtain ⟨h1, h2, h3, h4, h5, h6, h7⟩ := register_201_inv genHash st d h
  rw [register_eq_success genHash st d h1 h2 h3 h4 h5 h6 h7]
  by_cases horg : py_strip d.organization_name = ""
  · exact ⟨_, rfl, rfl, rfl, rfl, fun _ => by simp [horg],
      fun hc => absurd horg hc⟩
  · refine ⟨_, rfl, rfl, rfl, rfl, fun hc => absurd hc horg, fun _ => ?_⟩
    refine ⟨by simp [horg],
      ⟨st.orgs.length + 1, py_strip d.organization_name,
        py_lower (py_strip d.email), true⟩,
      by simp [horg], by simp [horg], rfl, rfl, rfl⟩

/-- If some existing user already has the (normalised) email of the
request, an otherwise valid `register` answers 409 and leaves the state
unchanged — through the username check or the email check. -/
theorem register_conflict_of_email_exists (genHash : String → String)
    (st : DBState) (d : RegisterData)
    (h1 : d.username ≠ "") (h2 : d.email ≠ "") (h3 : d.password ≠ "")
    (h4 : validate_email (py_lower (py_strip d.email)) = true)
    (h5 : (validate_password d.password).1 = true)
    (h7 : st.users.any (fun u => u.email == py_lower (py_strip d.email)) = true) :
    (register genHash st d).1.status = 409 ∧ (register genHash st d).2 = st := by
  by_cases h6 : st.users.any (fun u => u.username == py_strip d.username) = true
  · rw [register_eq_username_conflict genHash st d h1 h2 h3 h4 h5 h6]
    exact ⟨rfl, rfl⟩
  · rw [register_eq_email_conflict genHash st d h1 h2 h3 h4 h5
      (by simpa using h6) h7]
    exact ⟨rfl, rfl⟩

/-- Claim C5 — registering a second user with the same email after a
successful registration returns 409 and leaves the whole database state
(in particular the user table) unchanged, so no duplicate row for that
email is ever created. -/
theorem register_duplicate_email (genHash : String → String) (st : DBState)
    (d1 d2 : RegisterData)
    (h1 : (register genHash st d1).1.status = 201)
    (he : d2.email = d1.email)
    (hu : d2.username ≠ "") (hp : d2.password ≠ "")
    (hv : (validate_password d2.password).1 = true) :
    (register genHash (register genHash st d1).2 d2).1.status = 409 ∧
    (register genHash (register genHash st d1).2 d2).2 =
      (register genHash st d1).2 := by
  obtain ⟨a1, a2, a3, a4, a5, a6, a7⟩ := register_201_inv genHash st d1 h1
  obtain ⟨u1, husers, -, hemail, -, -, -⟩ :=
    register_success_state genHash st d1 h1
  refine register_conflict_of_email_exists genHash _ d2 hu ?_ hp ?_ hv ?_
  · rw [he]; exact a2
  · rw [he]; exact a4
  · rw [husers, he]
    simp [List.any_append, hemail]

/-- Claim C9 — a successful self-registration assigns role `client_user`
by default; when a non-empty `organization_name` is supplied, a new
organization is created in the same transaction, the user's
`organization_id` points at it, and the role is `client_admin` instead. -/
theorem register_role_and_organization (genHash : String → String)
    (st : DBState) (d : RegisterData)
    (h : (register genHash st d).1.status = 201) :
    ∃ u : UserRec,
      (register genHash st d).2.users = st.users ++ [u] ∧
      (py_strip d.organization_name = "" →
        u.role = UserRole.client_user ∧ u.organization_id = none ∧
        (register genHash st d).2.orgs = st.orgs) ∧
      (py_strip d.organization_name ≠ "" →
        u.role = UserRole.client_admin ∧
        ∃ org : OrgRec, (register genHash st d).2.orgs = st.orgs ++ [org] ∧
          u.organization_id = some org.id ∧
          org.name = py_strip d.organization_name ∧
          org.contact_email = u.email) := by
  obtain ⟨u, hu1, -, hu3, -, hu5, hu6⟩ := register_success_state genHash st d h
  refine ⟨u, hu1, hu5, fun hc => ?_⟩
  obtain ⟨hrole, org, ho1, ho2, ho3, ho4, -⟩ := hu6 hc
  exact ⟨hrole, org, ho1, ho2, ho3, by rw [ho4, hu3]⟩

/-- A concrete stand-in password-hashing function for witnesses. -/
def genHash0 : String → String := fun s => s ++ "#h"

/-- The empty database. -/
def st0 : DBState := ⟨[], []⟩

def d1w : RegisterData := ⟨"alice", "al@ex.co", "Passw0rd", "", "", "", ""⟩

def d2w : RegisterData := ⟨"bob", "al@ex.co", "Passw0rd", "", "", "", ""⟩

/-- Claim C5 witness — concrete duplicate registration of
`al@ex.co`. -/
theorem register_duplicate_email_witness :
    ((register genHash0 st0 d1w).1.status = 201 ∧ d2w.email = d1w.email ∧
     d2w.username ≠ "" ∧ d2w.password ≠ "" ∧
     (validate_password d2w.password).1 = true) ∧
    ((register genHash0 (register genHash0 st0 d1w).2 d2w).1.status = 409 ∧
     (register genHash0 (register genHash0 st0 d1w).2 d2w).2 =
       (register genHash0 st0 d1w).2) :=
  ⟨⟨by decide, by decide, by decide, by decide, by decide⟩,
   register_duplicate_email genHash0 st0 d1w d2w (by decide) (by decide)
     (by decide) (by decide) (by decide)⟩

def d9w : RegisterData := ⟨"carol", "ca@ex.co", "Passw0rd", "", "", "", "Acme"⟩

/-- Claim C9 witness — concrete registration with organization name
`Acme`. -/
theorem register_role_and_organization_witness :
    (register genHash0 st0 d9w).1.status = 201 ∧
    (∃ u : UserRec,
      (register genHash0 st0 d9w).2.users = st0.users ++ [u] ∧
      (py_strip d9w.organization_name = "" →
        u.role = UserRole.client_user ∧ u.organization_id = none ∧
        (register genHash0 st0 d9w).2.orgs = st0.orgs) ∧
      (py_strip d9w.organization_name ≠ "" →
        u.role = UserRole.client_admin ∧
        ∃ org : OrgRec,
          (register genHash0 st0 d9w).2.orgs = st0.orgs ++ [org] ∧
          u.organization_id = some org.id ∧
          org.name = py_strip d9w.organization_name ∧
          org.contact_email = u.email)) :=
  ⟨by decide, register_role_and_organization genHash0 st0 d9w (by decide)⟩

/-- `login` never changes the modelled database state (the source only
touches timestamp columns). -/
theorem login_state_id (chk : String → String → Bool) (st : DBState)
    (email password : String) : (login chk st email password).2 = st := by
  simp only [login]
  split_ifs with h
  · rfl
  · rcases hfind : st.users.find? (fun u => u.email == py_lower (py_strip email)) with _ | u
    · simp [hfind]
    · simp only [hfind]
      split_ifs <;> rfl

/-- Repeated logins leave the modelled state unchanged. -/
theorem login_iter_id (chk : String → String → Bool) (st : DBState)
    (email password : String) (n : ℕ) :
    login_iter chk st email password n = st := by
  induction n with
  | zero => rfl
  | succ k ih => simp [login_iter, ih, login_state_id]

/-- Claim C6 — a login whose password does not match gets the response
`401 "Invalid email or password"`, byte-identical whether the email exists
(run on `stA`) or not (run on `stB`), so the response does not reveal
email existence; and no number of repeated attempts with an incorrect
password ever yields a 200. -/
theorem login_wrong_password_uniform (chk : String → String → Bool)
    (stA stB : DBState) (email password : String)
    (he : email ≠ "") (hp : password ≠ "")
    (hwrong : ∀ u ∈ stA.users, u.email = py_lower (py_strip email) →
      chk u.password_hash password = false)
    (habsent : ∀ u ∈ stB.users, u.email ≠ py_lower (py_strip email)) :
    (login chk stA email password).1 = ⟨401, "Invalid email or password"⟩ ∧
    (login chk stB email password).1 = ⟨401, "Invalid email or password"⟩ ∧
    ∀ n : ℕ,
      (login chk (login_iter chk stA email password n) email password).1.status
        ≠ 200 := by
  have hguard : ¬(email = "" ∨ password = "") := by
    push_neg
    exact ⟨he, hp⟩
  have hA : (login chk stA email password).1 =
      ⟨401, "Invalid email or password"⟩ := by
    simp only [login, if_neg hguard]
    rcases hfind : stA.users.find? (fun u => u.email == py_lower (py_strip email)) with _ | u
    · simp [hfind]
    · have hmem := List.mem_of_find?_eq_some hfind
      have hprop := List.find?_some hfind
      have hmail : u.email = py_lower (py_strip email) := by simpa using hprop
      have hbad := hwrong u hmem hmail
      simp [hfind, hbad]
  refine ⟨hA, ?_, ?_⟩
  · have hnone : stB.users.find?
        (fun u => u.email == py_lower (py_strip email)) = none := by
      rw [List.find?_eq_none]
      intro u hu
      simpa using habsent u hu
    simp [login, if_neg hguard, hnone]
  · intro n
    rw [login_iter_id, hA]
    decide

/-- Claim C10 — a login with a correct password for an existing but
deactivated account answers `401 "Account is deactivated"`, a message
distinct from the invalid-credentials response, so it distinguishes
deactivated accounts from non-existent ones. -/
theorem login_deactivated_message (chk : String → String → Bool)
    (st : DBState) (email password : String) (u : UserRec)
    (he : email ≠ "") (hp : password ≠ "")
    (hfind : st.users.find? (fun x => x.email == py_lower (py_strip email)) =
      some u)
    (hok : chk u.password_hash password = true)
    (hact : u.is_active = false) :
    (login chk st email password).1 = ⟨401, "Account is deactivated"⟩ ∧
    (login chk st email password).1.message ≠ "Invalid email or password" := by
  have hguard : ¬(email = "" ∨ password = "") := by
    push_neg
    exact ⟨he, hp⟩
  have h1 : (login chk st email password).1 =
      ⟨401, "Account is deactivated"⟩ := by
    simp [login, if_neg hguard, hfind, hok, hact]
  refine ⟨h1, ?_⟩
  rw [h1]
  decide

/-- A concrete stand-in hash checker for witnesses. -/
def chk0 : String → String → Bool := fun h p => h == p

/-- Witness user for claim C6: active, hash `"Secret1A"`. -/
def uA : UserRec :=
  ⟨1, "alice", "al@ex.co", "Secret1A", "", "", "", UserRole.client_user,
   none, true⟩

/-- Witness database for claim C6. -/
def stA0 : DBState := ⟨[uA], []⟩

/-- Claim C6 witness — concrete wrong-password login against `stA0`
(email present) and the empty database (email absent). -/
theorem login_wrong_password_uniform_witness :
    (("al@ex.co" : String) ≠ "" ∧ ("WrongPass1" : String) ≠ "" ∧
     (∀ u ∈ stA0.users, u.email = py_lower (py_strip "al@ex.co") →
       chk0 u.password_hash "WrongPass1" = false) ∧
     (∀ u ∈ st0.users, u.email ≠ py_lower (py_strip "al@ex.co"))) ∧
    ((login chk0 stA0 "al@ex.co" "WrongPass1").1 =
       ⟨401, "Invalid email or password"⟩ ∧
     (login chk0 st0 "al@ex.co" "WrongPass1").1 =
       ⟨401, "Invalid email or password"⟩ ∧
     ∀ n : ℕ,
       (login chk0 (login_iter chk0 stA0 "al@ex.co" "WrongPass1" n)
         "al@ex.co" "WrongPass1").1.status ≠ 200) :=
  ⟨⟨by decide, by decide, by decide, by decide⟩,
   login_wrong_password_uniform chk0 stA0 st0 "al@ex.co" "WrongPass1"
     (by decide) (by decide) (by decide) (by decide)⟩

/-- Witness user for claim C10: deactivated, hash `"Passw0rd"`. -/
def uD : UserRec :=
  ⟨1, "dave", "da@ex.co", "Passw0rd", "", "", "", UserRole.client_user,
   none, false⟩

/-- Witness database for claim C10. -/
def stD0 : DBState := ⟨[uD], []⟩

/-- Claim C10 witness — concrete correct-password login against the
deactivated account `uD`. -/
theorem login_deactivated_message_witness :
    (("da@ex.co" : String) ≠ "" ∧ ("Passw0rd" : String) ≠ "" ∧
     stD0.users.find? (fun x => x.email == py_lower (py_strip "da@ex.co")) =
       some uD ∧
     chk0 uD.password_hash "Passw0rd" = true ∧ uD.is_active = false) ∧
    ((login chk0 stD0 "da@ex.co" "Passw0rd").1 =
       ⟨401, "Account is deactivated"⟩ ∧
     (login chk0 stD0 "da@ex.co" "Passw0rd").1.message ≠
       "Invalid email or password") :=
  ⟨⟨by decide, by decide, by decide, by decide, by decide⟩,
   login_deactivated_message chk0 stD0 "da@ex.co" "Passw0rd" uD (by decide)
     (by decide) (by decide) (by decide) (by decide)⟩

/-! ### Project progress (`src/models/project.py`) -/

/-- The counter columns of the `Project` table that
`progress_percentage` reads. -/
structure Project where
  total_items : ℕ
  completed_items : ℕ
  approved_items : ℕ
deriving DecidableEq, Repr

/-- Python `/` on numbers: raises `ZeroDivisionError` on a zero divisor,
modelled as `none`. -/
def pydiv (a b : ℚ) : Option ℚ :=
  if b = 0 then none else some (a / b)

/-- Shallow embedding of the `Project.progress_percentage` property:
`0` when `total_items == 0`, else `(completed_items / total_items) * 100`,
with the division modelled as fallible. -/
def progress_percentage (p : Project) : Option ℚ :=
  if p.total_items = 0 then some 0
  else (pydiv (p.completed_items : ℚ) (p.total_items : ℚ)).map (· * 100)

/-- Claim C7 — `progress_percentage` is 0 whenever `total_items = 0`
(for every `completed_items`), equals `(completed / total) * 100` when
`total_items > 0`, and never hits the division-by-zero error. -/
theorem progress_percentage_safe (p : Project) :
    (p.total_items = 0 → progress_percentage p = some 0) ∧
    (0 < p.total_items →
      progress_percentage p =
        some (((p.completed_items : ℚ) / (p.total_items : ℚ)) * 100)) ∧
    progress_percentage p ≠ none := by
  by_cases h : p.total_items = 0
  · refine ⟨fun _ => ?_, fun hpos => absurd h (Nat.pos_iff_ne_zero.mp hpos), ?_⟩
    · simp [progress_percentage, h]
    · simp [progress_percentage, h]
  · have hq : ((p.total_items : ℚ)) ≠ 0 := by
      exact_mod_cast h
    refine ⟨fun hc => absurd hc h, fun _ => ?_, ?_⟩
    · simp [progress_percentage, h, pydiv, hq]
    · simp [progress_percentage, h, pydiv, hq]

/-- Claim C7 witness — a project with `total_items = 0` reports 0% even
with 7 completed items, and a project with 2 of 4 items completed reports
`(2/4) * 100`%. -/
theorem progress_percentage_safe_witness :
    (progress_percentage ⟨0, 7, 0⟩ = some 0 ∧
     progress_percentage ⟨0, 7, 0⟩ ≠ none) ∧
    (progress_percentage ⟨4, 2, 0⟩ =
       some (((2 : ℚ) / (4 : ℚ)) * 100) ∧
     progress_percentage ⟨4, 2, 0⟩ ≠ none) :=
  ⟨⟨(progress_percentage_safe ⟨0, 7, 0⟩).1 rfl,
    (progress_percentage_safe ⟨0, 7, 0⟩).2.2⟩,
   ⟨(progress_percentage_safe ⟨4, 2, 0⟩).2.1 (by norm_num),
    (progress_percentage_safe ⟨4, 2, 0⟩).2.2⟩⟩

/-! ### File uploads (`src/routes/files.py`) -/

/-- The union of `ALLOWED_EXTENSIONS` over all categories
(`ALL_ALLOWED_EXTENSIONS` in the source). -/
def ALL_ALLOWED_EXTENSIONS : List String :=
  ["png", "jpg", "jpeg", "gif", "bmp", "tiff", "webp",
   "pdf", "doc", "docx", "txt", "rtf",
   "mp3", "wav", "flac", "aac", "m4a", "ogg",
   "mp4", "avi", "mov", "wmv", "flv", "webm", "mkv",
   "csv", "json", "xml", "xlsx", "xls",
   "zip", "rar", "7z", "tar", "gz"]

/-- Python `filename.rsplit('.', 1)[1].lower()`: everything after the last
dot, lowercased. -/
def file_extension (filename : String) : String :=
  ⟨((filename.toList.reverse.takeWhile (· ≠ '.')).map Char.toLower).reverse⟩

/-- `allowed_file` from `src/routes/files.py`: the name contains a dot and
its lowercased last extension is in the allowed set. -/
def allowed_file (filename : String) : Bool :=
  filename.toList.contains '.' &&
    ALL_ALLOWED_EXTENSIONS.contains (file_extension filename)

/-- A row of the `DataItem` table (the columns claim C8 reads). -/
structure DataItemRec where
  dataset_id : ℕ
  filename : String
  uploaded_by : ℕ
deriving DecidableEq, Repr

/-- The aggregate result of the upload loop of `upload_files`. -/
structure UploadOutcome where
  uploaded_files : List String
  failed_files : List (String × String)
  items : List DataItemRec
deriving DecidableEq, Repr

/-- The per-file loop of `upload_files`, parametrised by whether the S3
upload of a file succeeds (`s3ok`; an exception is reported per file with
its message, modelled by the fixed text `"upload failed"`).  Empty
filenames are skipped; disallowed extensions are recorded in
`failed_files`; a stored file appends its `DataItem` row and its entry in
`uploaded_files`. -/
def process_uploads (s3ok : String → Bool) (dataset_id uploader : ℕ) :
    List String → List DataItemRec → UploadOutcome
  | [], items => ⟨[], [], items⟩
  | f :: rest, items =>
    if f = "" then process_uploads s3ok dataset_id uploader rest items
    else if !allowed_file f then
      let o := process_uploads s3ok dataset_id uploader rest items
      ⟨o.uploaded_files, (f, "File type not allowed") :: o.failed_files,
       o.items⟩
    else if s3ok f then
      let o := process_uploads s3ok dataset_id uploader rest
        (items ++ [⟨dataset_id, f, uploader⟩])
      ⟨f :: o.uploaded_files, o.failed_files, o.items⟩
    else
      let o := process_uploads s3ok dataset_id uploader rest items
      ⟨o.uploaded_files, (f, "upload failed") :: o.failed_files, o.items⟩

/-- `dataset.total_items = DataItem.query.filter_by(dataset_id=...).count()`
recomputed after the loop. -/
def dataset_total_items (items : List DataItemRec) (dataset_id : ℕ) : ℕ :=
  (items.filter (fun i => i.dataset_id == dataset_id)).length

/-- Claim C8 — an upload of one allowed and one disallowed file (in either
order) yields exactly one entry in `uploaded_files` and one in
`failed_files`, persists exactly the allowed file's `DataItem` row, and
the recomputed dataset `total_items` counts only that stored item. -/
theorem upload_mixed_extensions (s3ok : String → Bool) (did uid : ℕ)
    (f1 f2 : String)
    (h1 : allowed_file f1 = true) (h2 : allowed_file f2 = false)
    (hne1 : f1 ≠ "") (hne2 : f2 ≠ "") (hs3 : s3ok f1 = true) :
    (process_uploads s3ok did uid [f1, f2] [] =
       ⟨[f1], [(f2, "File type not allowed")], [⟨did, f1, uid⟩]⟩ ∧
     dataset_total_items (process_uploads s3ok did uid [f1, f2] []).items
       did = 1) ∧
    (process_uploads s3ok did uid [f2, f1] [] =
       ⟨[f1], [(f2, "File type not allowed")], [⟨did, f1, uid⟩]⟩ ∧
     dataset_total_items (process_uploads s3ok did uid [f2, f1] []).items
       did = 1) := by
  have e1 : process_uploads s3ok did uid [f1, f2] [] =
      ⟨[f1], [(f2, "File type not allowed")], [⟨did, f1, uid⟩]⟩ := by
    simp [process_uploads, h1, h2, hne1, hne2, hs3]
  have e2 : process_uploads s3ok did uid [f2, f1] [] =
      ⟨[f1], [(f2, "File type not allowed")], [⟨did, f1, uid⟩]⟩ := by
    simp [process_uploads, h1, h2, hne1, hne2, hs3]
  refine ⟨⟨e1, ?_⟩, ⟨e2, ?_⟩⟩
  · rw [e1]
    simp [dataset_total_items]
  · rw [e2]
    simp [dataset_total_items]

/-- Claim C8 witness — concrete upload of `a.png` (allowed) and `b.exe`
(disallowed). -/
theorem upload_mixed_extensions_witness :
    (allowed_file "a.png" = true ∧ allowed_file "b.exe" = false ∧
     ("a.png" : String) ≠ "" ∧ ("b.exe" : String) ≠ "") ∧
    ((process_uploads (fun _ => true) 3 1 ["a.png", "b.exe"] [] =
        ⟨["a.png"], [("b.exe", "File type not allowed")], [⟨3, "a.png", 1⟩]⟩ ∧
      dataset_total_items
        (process_uploads (fun _ => true) 3 1 ["a.png", "b.exe"] []).items 3 =
        1) ∧
     (process_uploads (fun _ => true) 3 1 ["b.exe", "a.png"] [] =
        ⟨["a.png"], [("b.exe", "File type not allowed")], [⟨3, "a.png", 1⟩]⟩ ∧
      dataset_total_items
        (process_uploads (fun _ => true) 3 1 ["b.exe", "a.png"] []).items 3 =
        1)) :=
  ⟨⟨by decide, by decide, by decide, by decide⟩,
   upload_mixed_extensions (fun _ => true) 3 1 "a.png" "b.exe" (by decide)
     (by decide) (by decide) (by decide) (by decide)⟩

end AIBridge
